import Mathlib

/-!
Verification of the customer-service agent core (`customer_service_agent.py`,
`agentcore_app.py`) against its natural-language specification.

The Python code is shallowly embedded: pure fragments become Lean functions,
calls to external services (Bedrock knowledge index, AgentCore memory store,
the completion model) become explicit `Except String _` parameters so that a
Python exception raised by a collaborator is an `Except.error` and a
`try/except` block is a `match` on that value.  Python `float` relevance
scores are modelled as `ℚ`.
-/

namespace SacAgent

/-- Python `str.lower` restricted to ASCII letters (the keywords scanned by
the entrypoint are ASCII). -/
def asciiLower (c : Char) : Char :=
  if c.toNat ≥ 65 ∧ c.toNat ≤ 90 then Char.ofNat (c.toNat + 32) else c

/-- Lowercase a whole string, as `response.lower()` does. -/
def lowerStr (s : String) : String := ⟨s.data.map asciiLower⟩

/-- Substring test on character lists: `containsSub needle hay` is Python
`needle in hay`. -/
def containsSub (needle : List Char) : List Char → Bool
  | [] => needle.isEmpty
  | c :: rest => needle.isPrefixOf (c :: rest) || containsSub needle rest

/-- Python `needle in hay` for strings. -/
def pyIn (needle hay : String) : Bool := containsSub needle.data hay.data

/-- The whitespace characters stripped by Python `str.strip()` (ASCII part). -/
def isPySpace (c : Char) : Bool :=
  c = ' ' || c = '\t' || c = '\n' || c = '\x0d' || c = '\x0b' || c = '\x0c'

/-- Python `str.strip()` on the underlying character list. -/
def stripList (l : List Char) : List Char :=
  ((l.dropWhile isPySpace).reverse.dropWhile isPySpace).reverse

/-- Python `str.strip()`. -/
def pyStrip (s : String) : String := ⟨stripList s.data⟩

/-- Python slice `s[:n]`. -/
def strTake (n : Nat) (s : String) : String := ⟨s.data.take n⟩

/-- Python `sep.join(parts)`. -/
def joinWith (sep : String) : List String → String
  | [] => ""
  | [s] => s
  | s :: t :: rest => s ++ sep ++ joinWith sep (t :: rest)

/-- Python slice `l[-n:]` (the last `n` elements, or all of them when the
list is shorter). -/
def takeLast (n : Nat) (l : List α) : List α := l.drop (l.length - n)

/-- Python truthiness of an optional string (`if user_id:`): `None` and the
empty string are falsy. -/
def pyTruthy : Option String → Bool
  | none => false
  | some s => !(s = "")

/-! ## Knowledge Retriever (`BedrockKnowledgeBaseClient.retrieve`,
`search_knowledge_base`) -/

/-- One processed retrieval result, as built in `retrieve`
(`customer_service_agent.py:186-191`): content text, relevance score,
source location and metadata (the latter two kept abstract as strings). -/
structure RetrievalResult where
  content : String
  score : ℚ
  location : String
  metadata : String
deriving DecidableEq, Repr

/-- The dictionary returned by `BedrockKnowledgeBaseClient.retrieve`
(`customer_service_agent.py:198-220`). -/
structure RetrieveResponse where
  results : List RetrievalResult
  total_results : Nat
  query : String
  error : Option String
deriving DecidableEq, Repr

/-- `x['score'] >= y['score']` — the descending-score order used by
`results.sort(key=lambda x: x['score'], reverse=True)`. -/
def scoreGe (a b : RetrievalResult) : Prop := b.score ≤ a.score

instance : DecidableRel scoreGe :=
  fun a b => inferInstanceAs (Decidable (b.score ≤ a.score))

instance : IsTotal RetrievalResult scoreGe := ⟨fun a b => le_total b.score a.score⟩

instance : IsTrans RetrievalResult scoreGe := ⟨fun _ _ _ h1 h2 => le_trans h2 h1⟩

/-- `BedrockKnowledgeBaseClient.retrieve` (`customer_service_agent.py:154-220`).
`backendCall` is the outcome of the
`bedrock_agent_runtime.retrieve(..., numberOfResults=max_results)` call: the
list of raw results on success, the exception text on failure (`ClientError`
or any other exception, lines 205-220).  The body filters results whose score
is below `min_score` (lines 182-191), sorts the survivors by descending score
(line 194, a stable sort, here `insertionSort` with the same order), and on
failure returns an empty, error-tagged response. -/
def retrieve (backendCall : Except String (List RetrievalResult)) (query : String)
    (max_results : Nat) (min_score : ℚ) : RetrieveResponse :=
  match backendCall with
  | .ok raw =>
      let results := (raw.filter (fun r => decide (min_score ≤ r.score))).insertionSort scoreGe
      { results := results, total_results := results.length, query := query, error := none }
  | .error e =>
      { results := [], total_results := 0, query := query, error := some e }

/-- Rendering of `f"{score:.2f}"` for a nonnegative rational score. -/
def fmt2 (q : ℚ) : String :=
  let c : Int := ⌊q * 100 + 1 / 2⌋
  let fp := (c % 100).natAbs
  toString (c / 100) ++ "." ++ (if fp < 10 then "0" else "") ++ toString fp

/-- `content[:800] + "..." if len(content) > 800 else content`
(`customer_service_agent.py:487`). -/
def contentPreview (content : String) : String :=
  if 800 < content.length then strTake 800 content ++ "..." else content

/-- The per-result block of `search_knowledge_base`
(`customer_service_agent.py:489-491`). -/
def formatResult (i : Nat) (r : RetrievalResult) : String :=
  "📄 **Resultado " ++ toString i ++ "** (relevancia: " ++ fmt2 r.score ++ ")\n"
    ++ contentPreview r.content

/-- The `enumerate(top_results, 1)` loop of `search_knowledge_base`. -/
def formatAll : Nat → List RetrievalResult → List String
  | _, [] => []
  | i, r :: rs => formatResult i r :: formatAll (i + 1) rs

/-- The tool `search_knowledge_base` (`customer_service_agent.py:448-504`).
It calls `bedrock_client.retrieve(query, max_results=15, min_score=0.25)`,
formats at most the top 3 results, and always returns the formatted string;
`retrieve` never raises (every exception is caught inside it), so the
function's own bare `except` branch is dead code in this model. -/
def search_knowledge_base (backendCall : Except String (List RetrievalResult))
    (query : String) : String :=
  let results := retrieve backendCall query 15 (1 / 4)
  let total_results := results.results.length
  let top_results := results.results.take 3
  let formatted_results := formatAll 1 top_results
  let formatted_response :=
    "🔍 **Información encontrada en la base de conocimientos:**\n\n"
      ++ "📊 **" ++ toString total_results ++ " resultados** para: \"" ++ query ++ "\"\n\n"
      ++ joinWith "\n\n" formatted_results
  if 3 < total_results then
    formatted_response ++ "\n\n💡 *Se encontraron " ++ toString (total_results - 3)
      ++ " resultados adicionales. Puedes hacer una consulta más específica para obtener información más precisa.*"
  else formatted_response

/-! ## Memory Store Adapter (`AgentCoreMemoryManager`) -/

/-- A piece of a namespace template string: literal text, or one of the two
`str.format` placeholders appearing in `MEMORY_CONFIG["namespaces"]`
(`customer_service_agent.py:114-123`). -/
inductive TemplatePart where
  | lit (s : String)
  | actorId
  | sessionId
deriving DecidableEq, Repr

/-- One `str.format` substitution step.  Formatting a template that mentions
`{session_id}` without supplying it raises `KeyError('session_id')`, whose
`str()` is `'session_id'` (with the quotes). -/
def renderPart (actor : String) (sess : Option String) : TemplatePart → Except String String
  | .lit s => .ok s
  | .actorId => .ok actor
  | .sessionId =>
      match sess with
      | some s => .ok s
      | none => .error "\x27session_id\x27"

/-- Python `template.format(actor_id=..., session_id=...)` on a parsed
template; an `Except.error` is the `KeyError` raised on a missing key. -/
def formatTemplate (t : List TemplatePart) (actor : String) (sess : Option String) :
    Except String String := do
  let parts ← t.mapM (renderPart actor sess)
  pure (String.join parts)

/-- The `MEMORY_CONFIG["namespaces"]` dictionary
(`customer_service_agent.py:118-122`), parameterized by the three strategy
identifiers read from the environment. -/
def memNamespaces (prefStrat summStrat semStrat : String) :
    String → Option (List TemplatePart) := fun t =>
  if t = "user_preferences" then
    some [.lit ("/strategies/" ++ prefStrat ++ "/actors/"), .actorId]
  else if t = "conversation_summaries" then
    some [.lit ("/strategies/" ++ summStrat ++ "/actors/"), .actorId,
          .lit "/sessions/", .sessionId]
  else if t = "semantic_memory" then
    some [.lit ("/strategies/" ++ semStrat ++ "/actors/"), .actorId]
  else none

/-- `AgentCoreMemoryManager.format_actor_id` (`customer_service_agent.py:246-248`):
the fixed actor-id marker `"customer_"` prepended to the raw user id. -/
def format_actor_id (user_id : String) : String := "customer_" ++ user_id

/-- One long-term memory record as consumed by `get_user_context`
(the `content` field of the dictionaries returned by the store). -/
structure MemoryRecord where
  content : String
  score : ℚ
  strategy_id : String
  created_at : String
deriving DecidableEq, Repr

/-- The dictionary returned by `AgentCoreMemoryManager.retrieve_memories`
(`customer_service_agent.py:289-344`).  `ns` stands for the `"namespace"`
key of the source (a reserved word in Lean); `ns`/`actor_id` are `none` on
the degraded paths, which omit those keys. -/
structure MemoryResult where
  memories : List MemoryRecord
  total : Nat
  ns : Option String
  actor_id : Option String
  error : Option String
deriving DecidableEq, Repr

/-- The `try:` body of `retrieve_memories` (`customer_service_agent.py:305-341`).
`nss` is the namespace-template table, `store` the outcome of
`memory_client.retrieve_memories` per namespace.  A `.error` is a Python
exception escaping the body to the `except` clause — in particular the
`KeyError` raised by `namespace_template.format(actor_id=...)` when the
template still mentions `{session_id}` (the `else` branch, line 318). -/
def retrieve_memories_body (nss : String → Option (List TemplatePart))
    (store : String → Except String (List MemoryRecord))
    (actor_id : String) (session_id : Option String) (namespace_type : String) :
    Except String MemoryResult := do
  let formatted_actor_id := format_actor_id actor_id
  match nss namespace_type with
  | none => pure ⟨[], 0, none, none, none⟩
  | some namespace_template => do
      let ns ←
        if namespace_type = "conversation_summaries" ∧ pyTruthy session_id then
          formatTemplate namespace_template formatted_actor_id session_id
        else
          formatTemplate namespace_template formatted_actor_id none
      let memories ← store ns
      pure ⟨memories, memories.length, some ns, some formatted_actor_id, none⟩

/-- `AgentCoreMemoryManager.retrieve_memories` (`customer_service_agent.py:289-344`):
returns empty immediately when the memory client is unavailable (lines
301-303), and its `except` clause turns any exception into an empty,
error-tagged result (lines 342-344). -/
def retrieve_memories (clientAvailable : Bool) (nss : String → Option (List TemplatePart))
    (store : String → Except String (List MemoryRecord))
    (actor_id : String) (session_id : Option String) (namespace_type : String) :
    MemoryResult :=
  if !clientAvailable then ⟨[], 0, none, none, none⟩
  else
    match retrieve_memories_body nss store actor_id session_id namespace_type with
    | .ok r => r
    | .error e => ⟨[], 0, none, none, some e⟩

/-- The snippet lines contributed by one namespace inside `get_user_context`
(`customer_service_agent.py:366-369` and the two analogous loops): the first
`k` records, keeping the nonempty contents, each rendered as `"- <content>"`. -/
def snippetLines (mems : List MemoryRecord) (k : Nat) : List String :=
  (((mems.take k).map (fun m => m.content)).filter (fun c => !(c = ""))).map
    (fun c => "- " ++ c)

/-- One labeled block of `get_user_context`: the header is appended whenever
the memories list is nonempty (`if user_prefs["memories"]:` and analogous),
followed by the capped snippet lines. -/
def contextBlock (header : String) (mems : List MemoryRecord) (k : Nat) : List String :=
  if mems = [] then [] else header :: snippetLines mems k

/-- `AgentCoreMemoryManager.get_user_context` (`customer_service_agent.py:346-401`),
expressed over the three memory lists obtained from its `retrieve_memories`
calls (preferences, conversation summaries, semantic memory); the summaries
block is only retrieved/appended when a session id is present (line 372). -/
def get_user_context (prefs summ sem : List MemoryRecord) (has_session : Bool) : String :=
  let context_parts :=
    contextBlock "👤 **Información del usuario:**" prefs 3
      ++ (if has_session then contextBlock "\n📝 **Conversaciones anteriores:**" summ 2 else [])
      ++ contextBlock "\n🧠 **Contexto relacionado:**" sem 2
  if context_parts = [] then "" else joinWith "\n" context_parts ++ "\n\n"

/-! ## Conversation Orchestrator (`CustomerServiceOrchestrator`) -/

/-- One stored interaction, as built by `_save_interaction`
(`customer_service_agent.py:717-723`). -/
structure Interaction where
  timestamp : String
  user_id : Option String
  user_message : String
  agent_response : String
  session_id : String
deriving DecidableEq, Repr

/-- The history update performed by one `_save_interaction` call
(`customer_service_agent.py:725-729`): append the new interaction, then keep
only the last 10 when the list has grown beyond 10. -/
def saveStep (history : List Interaction) (i : Interaction) : List Interaction :=
  let h := history ++ [i]
  if 10 < h.length then h.drop (h.length - 10) else h

/-- The stored history after a sequence of `_save_interaction` calls starting
from history `init` (each call re-reads what the previous one stored). -/
def saveAll (init : List Interaction) (xs : List Interaction) : List Interaction :=
  xs.foldl saveStep init

/-- The per-interaction lines of the `_build_contextualized_message` history
loop (`customer_service_agent.py:755-759`): index header, user message,
agent response truncated to 100 characters with an unconditional `"..."`,
and a blank separator line. -/
def interactionLines : Nat → List Interaction → List String
  | _, [] => []
  | i, it :: rest =>
      ("Interacción " ++ toString i ++ ":")
        :: ("Usuario: " ++ it.user_message)
        :: ("Agente: " ++ strTake 100 it.agent_response ++ "...")
        :: ""
        :: interactionLines (i + 1) rest

/-- The session-history block of `_build_contextualized_message`
(`customer_service_agent.py:749-759`): present only when the history is
nonempty, limited to the last 3 interactions. -/
def renderHistory (history : List Interaction) : List String :=
  if history = [] then []
  else
    let recent_history := if 3 < history.length then takeLast 3 history else history
    if recent_history = [] then []
    else "📝 **Contexto de conversación actual:**" :: interactionLines 1 recent_history

/-- `CustomerServiceOrchestrator._build_contextualized_message`
(`customer_service_agent.py:739-771`): optional long-term-memory block,
optional session-history block, then the current message under the fixed
`"💬 **Mensaje actual:**"` header, all joined with newlines.  The `user_id`
argument is accepted but, as in the source, never used in the text. -/
def build_contextualized_message (message : String) (user_id : Option String)
    (history : List Interaction) (user_context : String) : String :=
  let context_parts :=
    (if user_context = "" then []
     else ["🧠 **Memoria de largo plazo del usuario:**", user_context])
      ++ renderHistory history
      ++ ["💬 **Mensaje actual:**", message]
  joinWith "\n" context_parts

/-- The environment of one `chat` call: the outcomes of every collaborator
step, each an `Except` whose `.error` is a raised Python exception. -/
structure ChatEnv where
  getUserContext : Except String String
  getHistory : Except String (List Interaction)
  complete : String → Except String String
  saveInteraction : String → String → Except String Unit
  createEvent : String → String → Except String Bool

/-- The `try:` body of `CustomerServiceOrchestrator.chat`
(`customer_service_agent.py:649-676`): obtain long-term user context (only
when `user_id` and the session id are truthy), read the local history, build
the contextualized message, invoke the completion capability, then persist
the interaction and the memory event. -/
def chatBody (env : ChatEnv) (session_id : String) (message : String)
    (user_id : Option String) : Except String String := do
  let user_context ←
    if pyTruthy user_id ∧ !(session_id = "") then env.getUserContext else pure ""
  let conversation_history ← env.getHistory
  let contextualized_message :=
    build_contextualized_message message user_id conversation_history user_context
  let response ← env.complete contextualized_message
  let _ ← env.saveInteraction message response
  let _ ←
    if pyTruthy user_id ∧ !(session_id = "") then env.createEvent message response
    else pure true
  pure response

/-- The error string produced by the `except` clause of `chat`
(`customer_service_agent.py:678-690`): fixed guidance text (with the
contact fallbacks) followed by `str(e)`. -/
def errorResponse (e : String) : String :=
  "❌ **Error del sistema**\n\n            Disculpa, he encontrado un problema técnico. \n\n            🔧 **Opciones disponibles:**\n            1. Intenta reformular tu consulta\n            2. Contacta directamente: +1-234-567-8900\n            3. Email: soporte@empresa.com\n\n            **Error**: "
    ++ e

/-- `CustomerServiceOrchestrator.chat` (`customer_service_agent.py:636-690`)
viewed as a Python callable that could in principle raise: the whole body is
wrapped in `try/except Exception`, so a raising step yields the
`errorResponse` string instead of a propagated exception. -/
def chat (env : ChatEnv) (session_id : String) (message : String)
    (user_id : Option String) : Except String String :=
  match chatBody env session_id message user_id with
  | .ok r => .ok r
  | .error e => .ok (errorResponse e)

/-! ## AgentCore entrypoint (`agentcore_app.py`) -/

/-- The inbound AgentCore payload fields read by
`validate_agentcore_payload`; a missing key is `none` (Python
`payload.get(key, "")` defaults to the empty string). -/
structure AgentPayload where
  prompt : Option String
  user_id : Option String
deriving DecidableEq, Repr

/-- The validation outcome tuple `(is_valid, user_query, user_id,
error_message)` of `validate_agentcore_payload` (`agentcore_app.py:30-52`);
the metadata component is omitted as the claims do not touch it. -/
structure ValidationResult where
  is_valid : Bool
  user_query : Option String
  user_id : Option String
  error_message : Option String
deriving DecidableEq, Repr

/-- `validate_agentcore_payload` (`agentcore_app.py:30-49`): both required
fields are stripped before the emptiness check, and the first empty one is
reported by name. -/
def validate_agentcore_payload (p : AgentPayload) : ValidationResult :=
  let user_query := pyStrip (p.prompt.getD "")
  let user_id := pyStrip (p.user_id.getD "")
  if user_query = "" then
    ⟨false, none, none, some "Campo \x27prompt\x27 es requerido y no puede estar vacío"⟩
  else if user_id = "" then
    ⟨false, none, none, some "Campo \x27user_id\x27 es requerido y no puede estar vacío"⟩
  else ⟨true, some user_query, some user_id, none⟩

/-- The validation-failure envelope of the entrypoint
(`agentcore_app.py:74-83`). -/
structure ValidationFailure where
  message : String
  session_id : String
  timestamp : String
  source : String
deriving DecidableEq, Repr

/-- The entrypoint's validation step (`agentcore_app.py:72-83`): on an
invalid payload it returns the `success: false` envelope carrying the
validation message, the session id and the start timestamp. -/
def entrypointValidationCheck (p : AgentPayload) (session_id timestamp : String) :
    Option ValidationFailure :=
  let v := validate_agentcore_payload p
  if v.is_valid then none
  else some ⟨v.error_message.getD "", session_id, timestamp, "agentcore_validation"⟩

/-- The `tools_used` list surfaced by the entrypoint
(`agentcore_app.py:107-110`): both entries are derived by scanning the
lowercased response text for fixed keywords. -/
def computeToolsUsed (response : String) : List String :=
  (if pyIn "base de conocimientos" (lowerStr response) then
    ["search_knowledge_base", "knowledge_assistant"]
   else [])
    ++ (if pyIn "escalando a agente humano" (lowerStr response) then
        ["escalate_to_human"]
       else [])

/-- The critical-failure envelope of the entrypoint's `except` branch
(`agentcore_app.py:146-156`). -/
structure CriticalFailure where
  message : String
  error_type : String
  session_id : String
  user_id : Option String
  timestamp : String
deriving DecidableEq, Repr

/-- The envelope built at `agentcore_app.py:143-156`: the message is the
fixed Spanish text followed by `str(e)`. -/
def criticalFailureEnvelope (e error_type session_id : String) (user_id : Option String)
    (timestamp : String) : CriticalFailure :=
  ⟨"Error crítico en AgentCore customer service: " ++ e, error_type, session_id,
    user_id, timestamp⟩

/-! ## Helper lemmas -/

theorem append_ne_empty_left (s t : String) (h : s ≠ "") : s ++ t ≠ "" := by
  intro he
  apply h
  have hd := congrArg String.data he
  rw [String.data_append] at hd
  rcases List.append_eq_nil.mp hd with ⟨h1, _⟩
  cases s
  simp_all

theorem pyStrip_empty : pyStrip "" = "" := rfl

theorem pyStrip_of_all_space {s : String} (h : ∀ c ∈ s.data, isPySpace c = true) :
    pyStrip s = "" := by
  have h1 : s.data.dropWhile isPySpace = [] := List.dropWhile_eq_nil_iff.mpr h
  show String.mk (stripList s.data) = ""
  rw [stripList, h1]
  rfl

theorem length_takeLast (n : Nat) (l : List α) : (takeLast n l).length = l.length - (l.length - n) := by
  rw [takeLast, List.length_drop]

theorem takeLast_of_le {n : Nat} {l : List α} (h : l.length ≤ n) : takeLast n l = l := by
  rw [takeLast, Nat.sub_eq_zero_of_le h, List.drop_zero]

theorem takeLast_append_absorb (n : Nat) (u v : List α) :
    takeLast n (takeLast n u ++ v) = takeLast n (u ++ v) := by
  rcases le_or_lt u.length n with hle | hlt
  · rw [takeLast_of_le hle]
  · simp only [takeLast, List.length_append, List.length_drop]
    have e0 : u.length - (u.length - n) + v.length - n = v.length := by omega
    rw [e0]
    rcases le_or_lt v.length n with hv | hv
    · rw [List.drop_append_of_le_length
        (by rw [List.length_drop]; omega : v.length ≤ (u.drop (u.length - n)).length)]
      rw [List.drop_append_of_le_length (by omega : u.length + v.length - n ≤ u.length)]
      rw [List.drop_drop]
      congr 2
      omega
    · have e1 : v.length = (u.drop (u.length - n)).length + (v.length - n) := by
        rw [List.length_drop]; omega
      have e2 : u.length + v.length - n = u.length + (v.length - n) := by omega
      conv_lhs => rw [e1, List.drop_append]
      conv_rhs => rw [e2, List.drop_append]

theorem saveStep_eq (h : List Interaction) (x : Interaction) :
    saveStep h x = takeLast 10 (h ++ [x]) := by
  simp only [saveStep, takeLast]
  by_cases hl : 10 < (h ++ [x]).length
  · rw [if_pos hl]
  · rw [if_neg hl, Nat.sub_eq_zero_of_le (le_of_not_lt hl), List.drop_zero]

theorem saveStep_length_le (h : List Interaction) (x : Interaction) :
    (saveStep h x).length ≤ 10 := by
  rw [saveStep_eq, length_takeLast]
  omega

theorem saveAll_eq (xs : List Interaction) :
    ∀ h : List Interaction, h.length ≤ 10 → saveAll h xs = takeLast 10 (h ++ xs) := by
  induction xs with
  | nil =>
      intro h hh
      rw [saveAll, List.foldl_nil, List.append_nil, takeLast_of_le hh]
  | cons x xs ih =>
      intro h hh
      have step : saveAll h (x :: xs) = saveAll (saveStep h x) xs := rfl
      rw [step, ih (saveStep h x) (saveStep_length_le h x), saveStep_eq,
        takeLast_append_absorb, ← List.append_cons]

theorem snippetLines_length_le (mems : List MemoryRecord) (k : Nat) :
    (snippetLines mems k).length ≤ k :=
  calc (snippetLines mems k).length
      = ((((mems.take k).map (fun m => m.content)).filter (fun c => !(c = ""))).length) := by
        rw [snippetLines, List.length_map]
    _ ≤ ((mems.take k).map (fun m => m.content)).length := List.length_filter_le _ _
    _ = (mems.take k).length := List.length_map _ _
    _ ≤ k := by rw [List.length_take]; exact min_le_left _ _

theorem snippetLines_take (mems : List MemoryRecord) (k : Nat) :
    snippetLines (mems.take k) k = snippetLines mems k := by
  rw [snippetLines, snippetLines, List.take_take, min_self]

theorem contextBlock_take (header : String) (mems : List MemoryRecord) (k : Nat)
    (hk : 0 < k) : contextBlock header (mems.take k) k = contextBlock header mems k := by
  rw [contextBlock, contextBlock, snippetLines_take]
  congr 1
  simp only [eq_iff_iff, List.take_eq_nil_iff]
  constructor
  · rintro (h | h)
    · omega
    · exact h
  · intro h; exact Or.inr h

/-! ## Claim theorems -/

/-- C5: For every sequence of N interactions appended to one session's stored
conversation history (starting empty), the stored history has length at most
10, namely exactly min(N, 10), and equals the last min(N, 10) appended
interactions in insertion order — the oldest are evicted first. -/
theorem session_history_bounded_fifo (xs : List Interaction) :
    (saveAll [] xs).length ≤ 10 ∧
    (saveAll [] xs).length = min xs.length 10 ∧
    saveAll [] xs = xs.drop (xs.length - 10) := by
  have h := saveAll_eq xs [] (by simp)
  rw [List.nil_append] at h
  refine ⟨?_, ?_, ?_⟩
  · rw [h, length_takeLast]; omega
  · rw [h, length_takeLast]; omega
  · rw [h, takeLast]

/-- C6: For every actor id, calling `retrieve_memories` with namespace type
`"conversation_summaries"` and no session id does not raise (the `KeyError`
from the unresolvable template is caught by the method's own handler) and
deterministically returns an empty memory set, whatever the store holds and
whatever the strategy identifiers are. -/
theorem retrieve_memories_missing_session_empty (avail : Bool)
    (prefStrat summStrat semStrat : String)
    (store : String → Except String (List MemoryRecord)) (actor_id : String) :
    (retrieve_memories avail (memNamespaces prefStrat summStrat semStrat) store
        actor_id none "conversation_summaries").memories = [] ∧
    (retrieve_memories avail (memNamespaces prefStrat summStrat semStrat) store
        actor_id none "conversation_summaries").total = 0 := by
  cases avail <;> exact ⟨rfl, rfl⟩

/-- C7: In every user context built by `get_user_context`, the number of
memory snippets included per namespace is bounded — at most 3 from user
preferences, 2 from conversation summaries, 2 from semantic memory — and the
built context only ever depends on that many leading records of each
namespace, regardless of how many records the store returned. -/
theorem user_context_snippets_bounded (prefs summ sem : List MemoryRecord)
    (has_session : Bool) :
    (snippetLines prefs 3).length ≤ 3 ∧
    (snippetLines summ 2).length ≤ 2 ∧
    (snippetLines sem 2).length ≤ 2 ∧
    get_user_context prefs summ sem has_session
      = get_user_context (prefs.take 3) (summ.take 2) (sem.take 2) has_session := by
  refine ⟨snippetLines_length_le prefs 3, snippetLines_length_le summ 2,
    snippetLines_length_le sem 2, ?_⟩
  rw [get_user_context, get_user_context,
    contextBlock_take _ prefs 3 (by omega),
    contextBlock_take _ summ 2 (by omega),
    contextBlock_take _ sem 2 (by omega)]

/-- C2 counterexample: on a first interaction (no long-term memory, no
session history) the assembled context is NOT the bare current message — the
orchestrator still prepends the `"💬 **Mensaje actual:**"` header line. -/
theorem first_interaction_context_not_bare :
    build_contextualized_message "¿Cómo pago con OXXO?" (some "123") [] ""
      ≠ "¿Cómo pago con OXXO?" := by
  decide

/-- C2 amended: for every request with no long-term memory snippets and no
session history, the assembled context is the fixed header
`"💬 **Mensaje actual:**"` followed by a newline and the unmodified current
message — nothing else is prepended or appended. -/
theorem first_interaction_context_header_plus_message (message : String)
    (user_id : Option String) :
    build_contextualized_message message user_id [] ""
      = "💬 **Mensaje actual:**\n" ++ message := rfl

/-- C1 counterexample: a response that is exactly the structured output
contract with `"need_to_escalate": "true"` but without the Spanish escalation
keyword does not surface the escalation marker: the entrypoint scans the text
for `"escalando a agente humano"` and ignores the structured field. -/
theorem structured_escalation_flag_ignored :
    pyIn "\"need_to_escalate\": \"true\""
        "\x7b\"response\": \"ok\", \"tools_used\": [], \"need_to_escalate\": \"true\"\x7d"
      = true ∧
    "escalate_to_human" ∉
      computeToolsUsed
        "\x7b\"response\": \"ok\", \"tools_used\": [], \"need_to_escalate\": \"true\"\x7d" := by
  constructor
  · decide
  · decide

/-- C1 amended: the escalation decision surfaced with the response (the
presence of `"escalate_to_human"` in the surfaced tool list) is computed by
scanning the lowercased response text for the keyword
`"escalando a agente humano"` — it is exactly that keyword test, and the
structured `need_to_escalate` field is never consulted. -/
theorem escalation_flag_is_keyword_scan (response : String) :
    "escalate_to_human" ∈ computeToolsUsed response
      ↔ pyIn "escalando a agente humano" (lowerStr response) = true := by
  rcases Bool.eq_false_or_eq_true (pyIn "base de conocimientos" (lowerStr response))
    with h1 | h1 <;>
  rcases Bool.eq_false_or_eq_true (pyIn "escalando a agente humano" (lowerStr response))
    with h2 | h2 <;>
  simp [computeToolsUsed, h1, h2]

/-- C3: For every query, every positive result cap and every minimum score
in [0,1], knowledge retrieval keeps only results whose score reaches
`min_score`, sorted by score descending; given that the backend honours the
`numberOfResults = max_results` it was asked for, at most `max_results`
results come back, and when `min_score` exceeds every candidate's score the
result list is empty. -/
theorem retrieve_filters_sorts_bounded (backend : List RetrievalResult)
    (query : String) (max_results : Nat) (min_score : ℚ)
    (hmax : 0 < max_results) (h0 : 0 ≤ min_score) (h1 : min_score ≤ 1)
    (hlen : backend.length ≤ max_results) :
    (∀ r ∈ (retrieve (.ok backend) query max_results min_score).results,
      min_score ≤ r.score) ∧
    List.Sorted scoreGe (retrieve (.ok backend) query max_results min_score).results ∧
    (retrieve (.ok backend) query max_results min_score).results.length ≤ max_results ∧
    ((∀ r ∈ backend, r.score < min_score) →
      (retrieve (.ok backend) query max_results min_score).results = []) := by
  refine ⟨?_, ?_, ?_, ?_⟩
  · intro r hr
    rw [retrieve] at hr
    simp only [List.mem_insertionSort] at hr
    exact of_decide_eq_true (List.mem_filter.mp hr).2
  · exact List.sorted_insertionSort scoreGe _
  · rw [retrieve]
    simp only [List.length_insertionSort]
    exact le_trans (List.length_filter_le _ _) hlen
  · intro hall
    rw [retrieve]
    simp only []
    have hf : backend.filter (fun r => decide (min_score ≤ r.score)) = [] := by
      rw [List.filter_eq_nil_iff]
      intro r hr
      simp only [decide_eq_true_eq]
      exact not_le.mpr (hall r hr)
    rw [hf]
    rfl

/-- C3 witness: a concrete backend whose single candidate scores 1/10 with a
threshold of 1/2 satisfies all the hypotheses and yields the empty result
list. -/
theorem retrieve_filters_sorts_bounded_witness :
    (retrieve (.ok [⟨"doc", 1/10, "loc", "md"⟩]) "q" 5 (1/2)).results = [] :=
  (retrieve_filters_sorts_bounded [⟨"doc", 1/10, "loc", "md"⟩] "q" 5 (1/2)
      (by norm_num) (by norm_num) (by norm_num) (by simp)).2.2.2
    (by
      intro r hr
      simp only [List.mem_singleton] at hr
      subst hr
      norm_num)

/-- C4: On a failed knowledge-source call (any exception from the transport),
`retrieve` does not raise: it returns an empty result set tagged with the
error text; and `search_knowledge_base` — whose only fallible step is that
exception-free `retrieve` call — returns a nonempty message string in both
the errored and the no-results case instead of crashing. -/
theorem retrieve_failure_tagged_and_search_safe (e query : String) :
    (retrieve (.error e) query 15 (1/4)).results = [] ∧
    (retrieve (.error e) query 15 (1/4)).total_results = 0 ∧
    (retrieve (.error e) query 15 (1/4)).error = some e ∧
    search_knowledge_base (.error e) query ≠ "" ∧
    search_knowledge_base (.ok []) query ≠ "" := by
  have hval : ∀ backendCall : Except String (List RetrievalResult),
      (retrieve backendCall query 15 (1/4)).results = [] →
      search_knowledge_base backendCall query
        = "🔍 **Información encontrada en la base de conocimientos:**\n\n"
            ++ "📊 **" ++ "0" ++ " resultados** para: \"" ++ query ++ "\"\n\n"
            ++ joinWith "\n\n" [] := by
    intro backendCall hres
    rw [search_knowledge_base]
    simp only [hres]
    rfl
  have hne : ("🔍 **Información encontrada en la base de conocimientos:**\n\n"
      ++ "📊 **" ++ "0" ++ " resultados** para: \"" ++ query ++ "\"\n\n"
      ++ joinWith "\n\n" [] : String) ≠ "" := by
    apply append_ne_empty_left
    apply append_ne_empty_left
    apply append_ne_empty_left
    apply append_ne_empty_left
    apply append_ne_empty_left
    decide
  refine ⟨rfl, rfl, rfl, ?_, ?_⟩
  · rw [hval (.error e) rfl]; exact hne
  · rw [hval (.ok []) rfl]; exact hne

/-- C8 counterexample: the entrypoint's critical-failure envelope embeds the
raw exception text (`str(e)`) in its user-facing message, so the message is
not limited to a sanitized text. -/
theorem critical_failure_message_embeds_exception :
    pyIn "division by zero"
        (criticalFailureEnvelope "ZeroDivisionError: division by zero"
          "ZeroDivisionError" "s1" none "t1").message = true := by
  decide

/-- C8 amended: every externally visible failure envelope does carry the
session identifier and the timestamp, but the messages are not free of
exception internals: the entrypoint's exception envelope message is a fixed
Spanish text followed by the raw `str(e)`, and the orchestrator's chat error
response likewise ends with `str(e)` after its contact-fallback guidance;
only the validation-failure message is exception-free. -/
theorem failure_envelopes_traceable_but_unsanitized (e error_type session_id : String)
    (uid : Option String) (timestamp : String) (p : AgentPayload)
    (f : ValidationFailure) :
    ((criticalFailureEnvelope e error_type session_id uid timestamp).session_id
        = session_id ∧
      (criticalFailureEnvelope e error_type session_id uid timestamp).timestamp
        = timestamp ∧
      (criticalFailureEnvelope e error_type session_id uid timestamp).message
        = "Error crítico en AgentCore customer service: " ++ e ∧
      errorResponse e
        = "❌ **Error del sistema**\n\n            Disculpa, he encontrado un problema técnico. \n\n            🔧 **Opciones disponibles:**\n            1. Intenta reformular tu consulta\n            2. Contacta directamente: +1-234-567-8900\n            3. Email: soporte@empresa.com\n\n            **Error**: "
            ++ e) ∧
    (entrypointValidationCheck p session_id timestamp = some f →
      f.session_id = session_id ∧ f.timestamp = timestamp) := by
  refine ⟨⟨rfl, rfl, rfl, rfl⟩, ?_⟩
  intro h
  rw [entrypointValidationCheck] at h
  split at h
  · exact absurd h (by simp)
  · cases h
    exact ⟨rfl, rfl⟩

/-- C8 amended witness: the validation-envelope part at a concrete invalid
payload. -/
theorem failure_envelopes_traceable_but_unsanitized_witness :
    (⟨"Campo \x27prompt\x27 es requerido y no puede estar vacío", "sid1", "ts1",
        "agentcore_validation"⟩ : ValidationFailure).session_id = "sid1" ∧
    (⟨"Campo \x27prompt\x27 es requerido y no puede estar vacío", "sid1", "ts1",
        "agentcore_validation"⟩ : ValidationFailure).timestamp = "ts1" :=
  (failure_envelopes_traceable_but_unsanitized "boom" "RuntimeError" "sid1" none "ts1"
      ⟨some "", some "u"⟩ _).2 rfl

/-- C9: `chat` never propagates an exception to its caller: whatever the
outcome of each internal step, it returns a string — and whenever its body
raises, the returned string is the well-formed system-error message, so the
entrypoint's own exception branch is unreachable for failures arising inside
`chat`. -/
theorem chat_never_propagates (env : ChatEnv) (session_id message : String)
    (user_id : Option String) :
    (∃ s, chat env session_id message user_id = .ok s) ∧
    (∀ e, chatBody env session_id message user_id = .error e →
      chat env session_id message user_id = .ok (errorResponse e)) := by
  constructor
  · cases h : chatBody env session_id message user_id with
    | ok r => exact ⟨r, by rw [chat, h]⟩
    | error e => exact ⟨errorResponse e, by rw [chat, h]⟩
  · intro e he
    rw [chat, he]

/-- C9 witness: with a completion step that raises, `chat` returns the
system-error string carrying that exception text. -/
theorem chat_never_propagates_witness :
    chat ⟨.ok "", .ok [], fun _ => .error "boom", fun _ _ => .ok (), fun _ _ => .ok true⟩
        "s1" "hola" (some "123")
      = .ok (errorResponse "boom") :=
  (chat_never_propagates
      ⟨.ok "", .ok [], fun _ => .error "boom", fun _ _ => .ok (), fun _ _ => .ok true⟩
      "s1" "hola" (some "123")).2 "boom" rfl

/-- C10: a `"prompt"` consisting only of whitespace is rejected exactly as
an empty one, with the error naming the prompt field, and — when the prompt
passes — a whitespace-only `"user_id"` is rejected naming the user_id field;
in both cases the entrypoint surfaces the `success: false` validation
envelope with that message. -/
theorem whitespace_fields_rejected (pr u session_id timestamp : String) :
    ((∀ c ∈ pr.data, isPySpace c = true) →
      (validate_agentcore_payload ⟨some pr, some u⟩).is_valid = false ∧
      (validate_agentcore_payload ⟨some pr, some u⟩).error_message
        = some "Campo \x27prompt\x27 es requerido y no puede estar vacío" ∧
      validate_agentcore_payload ⟨some pr, some u⟩
        = validate_agentcore_payload ⟨some "", some u⟩ ∧
      entrypointValidationCheck ⟨some pr, some u⟩ session_id timestamp
        = some ⟨"Campo \x27prompt\x27 es requerido y no puede estar vacío",
            session_id, timestamp, "agentcore_validation"⟩) ∧
    (pyStrip pr ≠ "" → (∀ c ∈ u.data, isPySpace c = true) →
      (validate_agentcore_payload ⟨some pr, some u⟩).is_valid = false ∧
      (validate_agentcore_payload ⟨some pr, some u⟩).error_message
        = some "Campo \x27user_id\x27 es requerido y no puede estar vacío" ∧
      validate_agentcore_payload ⟨some pr, some u⟩
        = validate_agentcore_payload ⟨some pr, some ""⟩ ∧
      entrypointValidationCheck ⟨some pr, some u⟩ session_id timestamp
        = some ⟨"Campo \x27user_id\x27 es requerido y no puede estar vacío",
            session_id, timestamp, "agentcore_validation"⟩) := by
  constructor
  · intro hws
    have hpr : pyStrip pr = "" := pyStrip_of_all_space hws
    refine ⟨?_, ?_, ?_, ?_⟩ <;>
      simp [validate_agentcore_payload, entrypointValidationCheck, hpr, pyStrip_empty]
  · intro hpr hws
    have hu : pyStrip u = "" := pyStrip_of_all_space hws
    refine ⟨?_, ?_, ?_, ?_⟩ <;>
      simp [validate_agentcore_payload, entrypointValidationCheck, hpr, hu, pyStrip_empty]

/-- C10 witness: a whitespace-only prompt, and a valid prompt with a
whitespace-only user id, are both rejected. -/
theorem whitespace_fields_rejected_witness :
    (validate_agentcore_payload ⟨some "  \t ", some "123"⟩).is_valid = false ∧
    (validate_agentcore_payload ⟨some "hola", some " \n "⟩).is_valid = false :=
  ⟨((whitespace_fields_rejected "  \t " "123" "s" "t").1 (by decide)).1,
   ((whitespace_fields_rejected "hola" " \n " "s" "t").2 (by decide) (by decide)).1⟩

end SacAgent
